import Mathlib

/-!
Shallow embedding of the countdown widget in src/src/Countdown.jsx.

Timestamps are unix epochs in milliseconds, modelled as integers.
JavaScript Math.floor applied to an exact real quotient of integers is
floor division, modelled with Int.fdiv.  The component state machine
(tick on a one-second cadence, pause/resume toggle) is modelled as an
explicit step function over the CountdownState enumeration, with traces
as lists of events; the invocation of the onTimedOut callback is made
observable as the Boolean component of each step result.
-/

/-- Delta object produced by calculateTimeDifference: hours, minutes and
seconds fields (JavaScript numbers, here integers). -/
structure Delta where
  hours : Int
  minutes : Int
  seconds : Int
deriving DecidableEq, Repr

/-- CountdownState enumeration from Countdown.jsx (lines 13-17). -/
inductive CountdownState where
  | RUNNING
  | PAUSED
  | TIMEDOUT
deriving DecidableEq, Repr

open CountdownState

/-- Embedding of calculateRemainingSeconds (Countdown.jsx lines 24-27).
The call Date.now() is passed explicitly as the parameter now. -/
def calculateRemainingSeconds (endTimestamp now : Int) : Int :=
  let diff := endTimestamp - now
  if diff > 0 then Int.fdiv diff 1000 else -1

/-- Embedding of calculateTimeDifference (Countdown.jsx lines 35-65):
returns the all-zero delta when the start timestamp lies after the end
timestamp, otherwise decomposes the millisecond difference into hours,
minutes and remaining seconds by repeated floor division and subtraction. -/
def calculateTimeDifference (startTimestamp endTimestamp : Int) : Delta :=
  if startTimestamp > endTimestamp then
    { hours := 0, minutes := 0, seconds := 0 }
  else
    let deltaInMillis := |startTimestamp - endTimestamp|
    let seconds0 := Int.fdiv deltaInMillis 1000
    let hours := Int.fdiv seconds0 3600
    let seconds1 := seconds0 - hours * 3600
    let minutes := Int.fdiv seconds1 60
    let seconds2 := seconds1 - minutes * 60
    { hours := hours, minutes := minutes, seconds := seconds2 }

/-- Embedding of formatDeltaTimeAsString (Countdown.jsx lines 72-82):
each field below 10 is prefixed with a zero character, and the hours
field together with its separator is emitted only when hours exceeds 0. -/
def formatDeltaTimeAsString (delta : Delta) : String :=
  let hoursString := if delta.hours < 10 then "0" ++ toString delta.hours else toString delta.hours
  let minutesString := if delta.minutes < 10 then "0" ++ toString delta.minutes else toString delta.minutes
  let secondsString := if delta.seconds < 10 then "0" ++ toString delta.seconds else toString delta.seconds
  if delta.hours > 0 then
    hoursString ++ ":" ++ minutesString ++ ":" ++ secondsString
  else
    minutesString ++ ":" ++ secondsString

/-- Embedding of the togglePaused handler (Countdown.jsx lines 117-124). -/
def togglePaused (countdownState : CountdownState) : CountdownState :=
  if countdownState = PAUSED then RUNNING
  else if countdownState = RUNNING then PAUSED
  else countdownState

/-- Embedding of the tick callback (Countdown.jsx lines 96-113).  Date.now()
is passed explicitly as now; the Boolean result records whether the
onTimedOut callback was invoked during the step (the source guards the
invocation on the callback being supplied, modelled by hasOnTimedOut). -/
def tick (endTimestamp : Int) (hasOnTimedOut : Bool) (countdownState : CountdownState)
    (now : Int) : CountdownState × Bool :=
  if countdownState = RUNNING then
    let remainder := calculateRemainingSeconds endTimestamp now
    if remainder < 0 then (TIMEDOUT, hasOnTimedOut) else (RUNNING, false)
  else (countdownState, false)

/-- Events driving the countdown state machine: a timer tick observed at a
given current time, or a user pause/resume toggle. -/
inductive Event where
  | tickAt (now : Int)
  | toggle
deriving DecidableEq, Repr

/-- One step of the countdown state machine: the new state and whether the
onTimedOut callback was invoked on this step. -/
def stepEvent (endTimestamp : Int) (hasOnTimedOut : Bool) (s : CountdownState) :
    Event → CountdownState × Bool
  | Event.tickAt now => tick endTimestamp hasOnTimedOut s now
  | Event.toggle => (togglePaused s, false)

/-- Final state after running a trace of events from a given state. -/
def runEvents (endTimestamp : Int) (hasOnTimedOut : Bool) (s : CountdownState) :
    List Event → CountdownState
  | [] => s
  | e :: es => runEvents endTimestamp hasOnTimedOut (stepEvent endTimestamp hasOnTimedOut s e).fst es

/-- Number of onTimedOut invocations over a trace of events. -/
def countTimedOutCalls (endTimestamp : Int) (hasOnTimedOut : Bool) (s : CountdownState) :
    List Event → Nat
  | [] => 0
  | e :: es =>
    (if (stepEvent endTimestamp hasOnTimedOut s e).snd then 1 else 0) +
      countTimedOutCalls endTimestamp hasOnTimedOut (stepEvent endTimestamp hasOnTimedOut s e).fst es

/-- Embedding of the countdown-timer div rendered by the Countdown component
(Countdown.jsx lines 136 and 163): on every render the displayed string is
the formatted difference between Date.now() and the end timestamp.  The
current countdown state is in scope during rendering but does not feed
into this string. -/
def renderedTimerString (countdownState : CountdownState) (now endTimestamp : Int) : String :=
  formatDeltaTimeAsString (calculateTimeDifference now endTimestamp)

/-- Helper following the wording of the specification: zero-pad a numeral
to at least two digits. -/
def zeroPad2 (n : Int) : String :=
  if n < 10 then "0" ++ toString n else toString n

/-! Helper lemmas shared by the claim theorems. -/

/-- Closed form of calculateTimeDifference when the start does not lie after
the end: the fields are euclidean quotients and remainders of the whole
second count. -/
theorem calculateTimeDifference_of_le {startTimestamp endTimestamp : Int}
    (h : startTimestamp ≤ endTimestamp) :
    calculateTimeDifference startTimestamp endTimestamp =
      { hours := (endTimestamp - startTimestamp) / 1000 / 3600,
        minutes := (endTimestamp - startTimestamp) / 1000 % 3600 / 60,
        seconds := (endTimestamp - startTimestamp) / 1000 % 3600 % 60 } := by
  have hgt : ¬ (startTimestamp > endTimestamp) := not_lt.mpr h
  have habs : |startTimestamp - endTimestamp| = endTimestamp - startTimestamp := by
    rw [abs_sub_comm]
    exact abs_of_nonneg (by omega)
  unfold calculateTimeDifference
  rw [if_neg hgt]
  simp only [habs]
  rw [Int.fdiv_eq_ediv _ (by omega)]
  rw [Int.fdiv_eq_ediv _ (by omega)]
  rw [Int.fdiv_eq_ediv _ (by omega)]
  rw [Delta.mk.injEq]
  refine ⟨rfl, ?_, ?_⟩ <;> omega

/-- A step taken from TIMEDOUT changes nothing and invokes no callback. -/
theorem stepEvent_timedout (endTimestamp : Int) (hasOnTimedOut : Bool) (e : Event) :
    stepEvent endTimestamp hasOnTimedOut TIMEDOUT e = (TIMEDOUT, false) := by
  cases e <;> simp [stepEvent, tick, togglePaused]

/-- Every trace run from TIMEDOUT stays in TIMEDOUT. -/
theorem runEvents_timedout (endTimestamp : Int) (hasOnTimedOut : Bool) :
    ∀ es : List Event, runEvents endTimestamp hasOnTimedOut TIMEDOUT es = TIMEDOUT := by
  intro es
  induction es with
  | nil => rfl
  | cons e es ih => simp [runEvents, stepEvent_timedout, ih]

/-- No callback invocation ever happens on a trace run from TIMEDOUT. -/
theorem countTimedOutCalls_timedout (endTimestamp : Int) (hasOnTimedOut : Bool) :
    ∀ es : List Event, countTimedOutCalls endTimestamp hasOnTimedOut TIMEDOUT es = 0 := by
  intro es
  induction es with
  | nil => rfl
  | cons e es ih => simp [countTimedOutCalls, stepEvent_timedout, ih]

/-- With the callback supplied, a trace run from a live state invokes the
callback exactly once when it ends in TIMEDOUT and never otherwise. -/
theorem countTimedOutCalls_eq (endTimestamp : Int) (es : List Event) :
    ∀ s : CountdownState, s ≠ TIMEDOUT →
      countTimedOutCalls endTimestamp true s es =
        if runEvents endTimestamp true s es = TIMEDOUT then 1 else 0 := by
  induction es with
  | nil =>
    intro s hs
    simp [countTimedOutCalls, runEvents, hs]
  | cons e es ih =>
    intro s hs
    cases s with
    | TIMEDOUT => exact absurd rfl hs
    | RUNNING =>
      cases e with
      | tickAt now =>
        by_cases hr : calculateRemainingSeconds endTimestamp now < 0
        · simp [countTimedOutCalls, runEvents, stepEvent, tick, hr,
            countTimedOutCalls_timedout, runEvents_timedout]
        · simpa [countTimedOutCalls, runEvents, stepEvent, tick, hr] using
            ih RUNNING (by decide)
      | toggle =>
        simpa [countTimedOutCalls, runEvents, stepEvent, togglePaused] using
          ih PAUSED (by decide)
    | PAUSED =>
      cases e with
      | tickAt now =>
        simpa [countTimedOutCalls, runEvents, stepEvent, tick] using
          ih PAUSED (by decide)
      | toggle =>
        simpa [countTimedOutCalls, runEvents, stepEvent, togglePaused] using
          ih RUNNING (by decide)

/-! Claim theorems. -/

/-- Claim C1: for every pair of timestamps now and target with now ≤ target,
the delta returned by calculateTimeDifference now target satisfies
hours*3600 + minutes*60 + seconds = floor((target - now)/1000), the floor
division being Int.fdiv. -/
theorem C1_delta_totals_floor_seconds (now target : Int) (h : now ≤ target) :
    (calculateTimeDifference now target).hours * 3600 +
      (calculateTimeDifference now target).minutes * 60 +
      (calculateTimeDifference now target).seconds = Int.fdiv (target - now) 1000 := by
  rw [calculateTimeDifference_of_le h, Int.fdiv_eq_ediv _ (by omega)]
  dsimp only
  omega

/-- Witness for C1 at now = 0, target = 7300500. -/
theorem C1_delta_totals_floor_seconds_witness :
    (calculateTimeDifference 0 7300500).hours * 3600 +
      (calculateTimeDifference 0 7300500).minutes * 60 +
      (calculateTimeDifference 0 7300500).seconds = Int.fdiv (7300500 - 0) 1000 :=
  C1_delta_totals_floor_seconds 0 7300500 (by decide)

/-- Claim C3: for every pair of timestamps with target < now,
calculateRemainingSeconds target evaluated at now returns -1. -/
theorem C3_remaining_seconds_past_target (target now : Int) (h : target < now) :
    calculateRemainingSeconds target now = -1 := by
  simp only [calculateRemainingSeconds]
  rw [if_neg (by omega)]

/-- Witness for C3 at target = 0, now = 5. -/
theorem C3_remaining_seconds_past_target_witness :
    calculateRemainingSeconds 0 5 = -1 :=
  C3_remaining_seconds_past_target 0 5 (by decide)

/-- Claim C5: for every pair of input timestamps the delta returned by
calculateTimeDifference has non-negative hours, minutes in 0-59 and seconds
in 0-59, and whenever the start lies strictly after the end the delta is
all-zero. -/
theorem C5_delta_field_ranges (startTimestamp endTimestamp : Int) :
    0 ≤ (calculateTimeDifference startTimestamp endTimestamp).hours ∧
    0 ≤ (calculateTimeDifference startTimestamp endTimestamp).minutes ∧
    (calculateTimeDifference startTimestamp endTimestamp).minutes ≤ 59 ∧
    0 ≤ (calculateTimeDifference startTimestamp endTimestamp).seconds ∧
    (calculateTimeDifference startTimestamp endTimestamp).seconds ≤ 59 ∧
    (startTimestamp > endTimestamp →
      calculateTimeDifference startTimestamp endTimestamp =
        { hours := 0, minutes := 0, seconds := 0 }) := by
  by_cases hgt : startTimestamp > endTimestamp
  · have hz : calculateTimeDifference startTimestamp endTimestamp =
        { hours := 0, minutes := 0, seconds := 0 } := by
      unfold calculateTimeDifference
      rw [if_pos hgt]
    rw [hz]
    refine ⟨by decide, by decide, by decide, by decide, by decide, fun _ => rfl⟩
  · rw [calculateTimeDifference_of_le (by omega)]
    dsimp only
    refine ⟨?_, ?_, ?_, ?_, ?_, fun hc => absurd hc hgt⟩ <;> omega

/-- Witness for C5 at startTimestamp = 10, endTimestamp = 3. -/
theorem C5_delta_field_ranges_witness :
    calculateTimeDifference 10 3 = { hours := 0, minutes := 0, seconds := 0 } :=
  (C5_delta_field_ranges 10 3).2.2.2.2.2 (by decide)

/-- Claim C10: calculateRemainingSeconds returns -1 exactly when the target
is at or before now, -1 is the only negative value it returns, and a strictly
positive difference below one second yields 0. -/
theorem C10_remaining_seconds_sentinel (endTimestamp now : Int) :
    (calculateRemainingSeconds endTimestamp now = -1 ↔ endTimestamp ≤ now) ∧
    (calculateRemainingSeconds endTimestamp now < 0 →
      calculateRemainingSeconds endTimestamp now = -1) ∧
    (0 < endTimestamp - now → endTimestamp - now < 1000 →
      calculateRemainingSeconds endTimestamp now = 0) := by
  simp only [calculateRemainingSeconds]
  by_cases h : endTimestamp - now > 0
  · rw [if_pos h, Int.fdiv_eq_ediv _ (by omega)]
    omega
  · rw [if_neg h]
    omega

/-- Witness for C10: equality boundary and a sub-second positive difference. -/
theorem C10_remaining_seconds_sentinel_witness :
    calculateRemainingSeconds 0 0 = -1 ∧ calculateRemainingSeconds 500 0 = 0 :=
  ⟨(C10_remaining_seconds_sentinel 0 0).1.mpr (by decide),
   (C10_remaining_seconds_sentinel 500 0).2.2 (by decide) (by decide)⟩

/-- Claim C2: with the onTimedOut callback supplied, every trace from the
initial RUNNING state that ends timed out invokes the callback exactly once,
and a step invokes the callback precisely when it is the RUNNING to TIMEDOUT
transition, which tick takes exactly when the recomputed remaining seconds
is negative while the state is RUNNING. -/
theorem C2_timed_out_callback_once (endTimestamp : Int) (es : List Event)
    (h : runEvents endTimestamp true RUNNING es = TIMEDOUT) :
    countTimedOutCalls endTimestamp true RUNNING es = 1 ∧
    (∀ (s : CountdownState) (e : Event),
      (stepEvent endTimestamp true s e).snd = true ↔
        (s = RUNNING ∧ (stepEvent endTimestamp true s e).fst = TIMEDOUT)) ∧
    (∀ now : Int,
      (tick endTimestamp true RUNNING now).fst = TIMEDOUT ↔
        calculateRemainingSeconds endTimestamp now < 0) := by
  refine ⟨?_, ?_, ?_⟩
  · rw [countTimedOutCalls_eq endTimestamp es RUNNING (by decide), if_pos h]
  · intro s e
    cases s with
    | RUNNING =>
      cases e with
      | tickAt now =>
        by_cases hr : calculateRemainingSeconds endTimestamp now < 0 <;>
          simp [stepEvent, tick, hr]
      | toggle => simp [stepEvent, togglePaused]
    | PAUSED => cases e <;> simp [stepEvent, tick, togglePaused]
    | TIMEDOUT => cases e <;> simp [stepEvent, tick, togglePaused]
  · intro now
    by_cases hr : calculateRemainingSeconds endTimestamp now < 0 <;> simp [tick, hr]

/-- Witness for C2 on the trace of a single tick observed past the target. -/
theorem C2_timed_out_callback_once_witness :
    countTimedOutCalls 0 true RUNNING [Event.tickAt 1] = 1 :=
  (C2_timed_out_callback_once 0 [Event.tickAt 1] (by decide)).1

/-- Claim C4: on deltas with in-range fields, formatDeltaTimeAsString
zero-pads each field to two digits and omits the hours field exactly when
hours is zero, and on the two sample deltas it produces the documented
strings. -/
theorem C4_format_zero_padded (d : Delta) (h0 : 0 ≤ d.hours) (h1 : 0 ≤ d.minutes)
    (h2 : d.minutes ≤ 59) (h3 : 0 ≤ d.seconds) (h4 : d.seconds ≤ 59) :
    formatDeltaTimeAsString d =
      (if d.hours = 0 then zeroPad2 d.minutes ++ ":" ++ zeroPad2 d.seconds
       else zeroPad2 d.hours ++ ":" ++ zeroPad2 d.minutes ++ ":" ++ zeroPad2 d.seconds) ∧
    formatDeltaTimeAsString { hours := 0, minutes := 5, seconds := 9 } = "05:09" ∧
    formatDeltaTimeAsString { hours := 2, minutes := 0, seconds := 1 } = "02:00:01" := by
  refine ⟨?_, rfl, rfl⟩
  by_cases hh : d.hours = 0
  · simp [formatDeltaTimeAsString, zeroPad2, hh]
  · have hpos : 0 < d.hours := lt_of_le_of_ne h0 (Ne.symm hh)
    simp [formatDeltaTimeAsString, zeroPad2, hh, hpos]

/-- Witness for C4 at the delta with 2 hours, 0 minutes, 1 second. -/
theorem C4_format_zero_padded_witness :
    formatDeltaTimeAsString { hours := 2, minutes := 0, seconds := 1 } = "02:00:01" :=
  (C4_format_zero_padded { hours := 2, minutes := 0, seconds := 1 }
    (by decide) (by decide) (by decide) (by decide) (by decide)).2.2

/-- Claim C6: the pause/resume toggle maps RUNNING to PAUSED and PAUSED to
RUNNING, applying it twice from either of those states restores the original
state, and it is a no-op on TIMEDOUT. -/
theorem C6_toggle_alternates :
    togglePaused RUNNING = PAUSED ∧ togglePaused PAUSED = RUNNING ∧
    togglePaused TIMEDOUT = TIMEDOUT ∧
    togglePaused (togglePaused RUNNING) = RUNNING ∧
    togglePaused (togglePaused PAUSED) = PAUSED := by
  decide

/-- Claim C7: TIMEDOUT is absorbing under every trace of ticks and toggles,
and the only state other than TIMEDOUT itself from which a step can land in
TIMEDOUT is RUNNING. -/
theorem C7_timedout_absorbing (endTimestamp : Int) (hasOnTimedOut : Bool) :
    (∀ es : List Event, runEvents endTimestamp hasOnTimedOut TIMEDOUT es = TIMEDOUT) ∧
    (∀ (s : CountdownState) (e : Event),
      (stepEvent endTimestamp hasOnTimedOut s e).fst = TIMEDOUT →
        s = TIMEDOUT ∨ s = RUNNING) := by
  refine ⟨runEvents_timedout endTimestamp hasOnTimedOut, ?_⟩
  intro s e hstep
  cases s with
  | RUNNING => exact Or.inr rfl
  | TIMEDOUT => exact Or.inl rfl
  | PAUSED => cases e <;> simp [stepEvent, tick, togglePaused] at hstep

/-- Witness for C7 on a trace from TIMEDOUT and a step landing in TIMEDOUT. -/
theorem C7_timedout_absorbing_witness :
    runEvents 0 true TIMEDOUT [Event.toggle, Event.tickAt 5] = TIMEDOUT ∧
    (TIMEDOUT = TIMEDOUT ∨ TIMEDOUT = RUNNING) :=
  ⟨(C7_timedout_absorbing 0 true).1 [Event.toggle, Event.tickAt 5],
   (C7_timedout_absorbing 0 true).2 TIMEDOUT Event.toggle (by decide)⟩

/-- Claim C8: whenever the state is not RUNNING, a tick leaves the state
unchanged and never invokes the onTimedOut callback, however far past the
target the current time is. -/
theorem C8_tick_frame (endTimestamp now : Int) (hasOnTimedOut : Bool)
    (s : CountdownState) (h : s ≠ RUNNING) :
    tick endTimestamp hasOnTimedOut s now = (s, false) := by
  simp [tick, h]

/-- Witness for C8: a tick in PAUSED far past the target changes nothing. -/
theorem C8_tick_frame_witness :
    tick 0 true PAUSED 999999999 = (PAUSED, false) :=
  C8_tick_frame 0 999999999 true PAUSED (by decide)

/-- Claim C9: in every countdown state the rendered timer string equals
formatDeltaTimeAsString applied to calculateTimeDifference of the current
time and the target, so it does not depend on the state. -/
theorem C9_render_state_independent (endTimestamp now : Int)
    (s1 s2 : CountdownState) :
    renderedTimerString s1 now endTimestamp =
      formatDeltaTimeAsString (calculateTimeDifference now endTimestamp) ∧
    renderedTimerString s1 now endTimestamp = renderedTimerString s2 now endTimestamp :=
  ⟨rfl, rfl⟩
